import Mathlib

/-!
Verification of the dual-factor attendance protocol of the PROJECT-V4
attendance-tracking application.

The frontend utilities (geolocation, manual coordinate entry, the camera
submission workflow, the haversine distance calculator) are embedded directly
from the TypeScript sources under `frontend/src`.  The backend verifier and
enrollment service are not part of the shipped sources; they are modelled from
the specification where a claim needs them, and each such definition is marked
`Modelled from the spec:` in its doc comment.

Conventions: JavaScript numbers that only ever flow through comparisons and
record fields are modelled as rationals; the haversine computation, which uses
transcendental functions, is modelled over the reals.  The result of
JavaScript `parseFloat` is modelled as `Option ℚ`, `none` standing for `NaN`.
-/

/-- Structure `LocationData` from `frontend/src/utils/geolocation.ts`:
latitude, longitude and accuracy in meters (0 meaning manual/unknown). -/
structure LocationData where
  latitude : ℚ
  longitude : ℚ
  accuracy : ℚ
deriving DecidableEq, Repr

/-- Structure `LocationError` from `frontend/src/utils/geolocation.ts`: a numeric
platform code together with a user-facing message. -/
structure LocationError where
  code : ℕ
  message : String
deriving DecidableEq, Repr

/-- The `PositionOptions` object passed to
`navigator.geolocation.getCurrentPosition` in `getCurrentLocation`. -/
structure PositionOptions where
  enableHighAccuracy : Bool
  timeout : ℕ
  maximumAge : ℕ
deriving DecidableEq, Repr

/-- The options literal of `getCurrentLocation`
(`geolocation.ts` lines 22–26). -/
def geolocationOptions : PositionOptions :=
  { enableHighAccuracy := false, timeout := 15000, maximumAge := 300000 }

/-- The error branch of `getCurrentLocation` (`geolocation.ts` lines 36–56):
maps a `GeolocationPositionError` code (1 = PERMISSION_DENIED,
2 = POSITION_UNAVAILABLE, 3 = TIMEOUT) and the platform error message to the
user-facing message.  The JavaScript `error.message || fallback` idiom is
modelled by testing for the empty string. -/
def geolocationErrorMessage (code : ℕ) (platformMessage : String) : String :=
  if code = 1 then "Please allow location access in your browser settings"
  else if code = 2 then
    "Location services unavailable. Please check your device settings"
  else if code = 3 then "Location request timed out. Please try again"
  else
    "Location error (" ++ toString code ++ "): " ++
      (if platformMessage = "" then "Please enable location services"
       else platformMessage)

/-- The rejection value built by the error branch of `getCurrentLocation`:
the original code paired with the mapped message. -/
def geolocationFailure (code : ℕ) (platformMessage : String) : LocationError :=
  { code := code, message := geolocationErrorMessage code platformMessage }

/-- The early rejection of `getCurrentLocation` when `navigator.geolocation`
is absent (`geolocation.ts` lines 14–19). -/
def geolocationUnsupportedError : LocationError :=
  { code := 0, message := "Geolocation is not supported by this browser" }

/-- Function `useManualLocation` from `components/AttendanceCamera.tsx` (lines 49–67):
the two text fields are run through `parseFloat` (modelled as `Option ℚ`);
if either is `NaN` the function reports an error and returns `null`
(modelled as `none`); otherwise it accepts the coordinates unconditionally
with accuracy 0.  No range check is performed. -/
def useManualLocation (lat lng : Option ℚ) : Option LocationData :=
  match lat, lng with
  | some la, some ln => some { latitude := la, longitude := ln, accuracy := 0 }
  | _, _ => none

/-- Function `setManualLocationData` from `pages/lecturer/create-session.tsx`
(lines 78–104): rejects non-parsing input, then latitude outside
[-90, 90], then longitude outside [-180, 180]; on success stores the
coordinates with accuracy 0. -/
def setManualLocationData (lat lng : Option ℚ) : Option LocationData :=
  match lat, lng with
  | some la, some ln =>
    if la < -90 ∨ la > 90 then none
    else if ln < -180 ∨ ln > 180 then none
    else some { latitude := la, longitude := ln, accuracy := 0 }
  | _, _ => none

/-- Outcome of one invocation of the client submission step: either an error
string is handed to the `onError` callback and no network request is made, or
a `POST /attendance/mark` request is issued with the given payload. -/
inductive SubmitAction where
  | errorReported (msg : String)
  | posted (sessionId : ℕ) (imageData : String) (lat lng : ℚ)
deriving DecidableEq, Repr

/-- Function `captureAndSubmit` from `components/AttendanceCamera.tsx` (lines 74–109):
guards, in order, on webcam availability, a resolved location, and a
successful screenshot, reporting an error and skipping the POST if any guard
fails; otherwise it posts the session id, image data and coordinates. -/
def captureAndSubmit (sessionId : ℕ) (webcamAvailable : Bool)
    (location : Option LocationData) (screenshot : Option String) :
    SubmitAction :=
  if ¬webcamAvailable then .errorReported "Camera not available"
  else
    match location with
    | none => .errorReported "Location is required. Please set your location first."
    | some loc =>
      match screenshot with
      | none => .errorReported "Failed to capture image"
      | some img => .posted sessionId img loc.latitude loc.longitude

/-- Modelled from the spec: `AttendanceSession` (§3) as consumed by the
backend verifier, which is not part of the shipped sources.  Times are epoch
seconds; the target location and radius come from session creation. -/
structure Session where
  startTime : ℤ
  endTime : ℤ
  targetLat : ℚ
  targetLng : ℚ
  radiusMeters : ℚ
deriving DecidableEq, Repr

/-- Modelled from the spec: a persisted `AttendanceRecord` (§3) with the two
verification booleans and the measured distance. -/
structure AttendanceRecord where
  studentId : ℕ
  sessionId : ℕ
  faceVerified : Bool
  locationVerified : Bool
  distanceMeters : ℚ
deriving DecidableEq, Repr

/-- Modelled from the spec: a stored `BiometricTemplate` (§3) — the encoding
vector and the quality score with which it was registered. -/
structure BiometricTemplate where
  owner : ℕ
  encodingVector : List ℚ
  qualityScore : ℚ
deriving DecidableEq, Repr

/-- Modelled from the spec: the storage-layer state the backend operations
read and write — the registered templates and the accepted attendance
records. -/
structure BackendState where
  templates : List BiometricTemplate
  records : List AttendanceRecord
deriving DecidableEq, Repr

/-- Modelled from the spec: whether the student has a registered template
(§4.4 step 2). -/
def hasTemplate (st : BackendState) (studentId : ℕ) : Bool :=
  st.templates.any fun t => t.owner = studentId

/-- Modelled from the spec: whether an accepted record for the
(student, session) pair already exists (§4.4 step 6 uniqueness check). -/
def hasRecord (st : BackendState) (studentId sessionId : ℕ) : Bool :=
  st.records.any fun r => r.studentId = studentId ∧ r.sessionId = sessionId

/-- Modelled from the spec: the session validity window — marking is allowed
only while current time lies in the half-open interval
[startTime, endTime) (§3 invariant, §4.4 step 1). -/
def sessionOpen (now : ℤ) (s : Session) : Bool :=
  decide (s.startTime ≤ now) && decide (now < s.endTime)

/-- Modelled from the spec: the geofence check of §4.4 step 4 —
`locationVerified := distance ≤ session.radiusMeters`, boundary inclusive. -/
def locationCheck (distanceMeters radiusMeters : ℚ) : Bool :=
  decide (distanceMeters ≤ radiusMeters)

/-- Modelled from the spec: the outcome of a mark-attendance attempt — the
acceptance, or one entry of the failure taxonomy of §4.4 relevant to the
claims, with the rejection carrying both factor flags and the distance
(§4.4 step 7). -/
inductive MarkOutcome where
  | accepted (distanceMeters : ℚ)
  | sessionClosed
  | noTemplate
  | alreadyMarked
  | rejected (faceVerified locationVerified : Bool) (distanceMeters : ℚ)
deriving DecidableEq, Repr

/-- Modelled from the spec: the backend `verify` operation of §4.4, whose
implementation is not in the shipped sources.  The face encoder is a black
box (§1, §9), so the outcome of step 3 enters as the boolean `faceVerified`,
and the distance computed by the DistanceCalculator collaborator in step 4
enters as `distanceMeters`.  Steps follow §4.4: (1) fail with `SessionClosed`
outside [startTime, endTime); (2) fail with `NoTemplate` without a
registered template; (4) `locationVerified := distance ≤ radius`;
(5) accept only if both factors hold; (6) on acceptance enforce uniqueness of
(studentId, sessionId), failing with `AlreadyMarked`, else persist the
record; (7) otherwise reject with the factor flags and the distance. -/
def verify (now : ℤ) (s : Session) (sessionId studentId : ℕ)
    (faceVerified : Bool) (distanceMeters : ℚ) (st : BackendState) :
    MarkOutcome × BackendState :=
  if ¬sessionOpen now s then (.sessionClosed, st)
  else if ¬hasTemplate st studentId then (.noTemplate, st)
  else
    let locationVerified := locationCheck distanceMeters s.radiusMeters
    if faceVerified && locationVerified then
      if hasRecord st studentId sessionId then (.alreadyMarked, st)
      else
        (.accepted distanceMeters,
         { st with
            records :=
              { studentId := studentId, sessionId := sessionId,
                faceVerified := faceVerified,
                locationVerified := locationVerified,
                distanceMeters := distanceMeters } :: st.records })
    else (.rejected faceVerified locationVerified distanceMeters, st)

/-- Modelled from the spec: the configured quality acceptance threshold
`FACE_QUALITY_THRESHOLD = 0.4` (ADVANCED_FACE_RECOGNITION.md, §4.3). -/
def FACE_QUALITY_THRESHOLD : ℚ := 2/5

/-- Modelled from the spec: result of the enrollment `register` operation
(§4.3) — success with the stored quality metrics, or `QualityTooLow`
carrying the numeric score, a categorical status and improvement
suggestions. -/
inductive RegisterResult where
  | success (qualityScore : ℚ)
  | qualityTooLow (qualityScore : ℚ) (status : String)
      (suggestions : List String)
deriving DecidableEq, Repr

/-- Modelled from the spec: the enrollment `register` operation of §4.3,
whose implementation is not in the shipped sources.  The black-box face
encoder's outputs for the image enter as `encodingVector` and
`qualityScore`.  Below the threshold it fails with `QualityTooLow` (score,
below-threshold status, suggestions about lighting, framing and obstruction)
and persists nothing; otherwise it stores the template, replacing any prior
template of the same student. -/
def register (studentId : ℕ) (encodingVector : List ℚ) (qualityScore : ℚ)
    (st : BackendState) : RegisterResult × BackendState :=
  if qualityScore < FACE_QUALITY_THRESHOLD then
    (.qualityTooLow qualityScore "below-threshold"
      ["improve the lighting", "center your face in the frame",
       "remove obstructions"], st)
  else
    (.success qualityScore,
     { st with
        templates :=
          { owner := studentId, encodingVector := encodingVector,
            qualityScore := qualityScore } ::
            st.templates.filter fun t => t.owner ≠ studentId })

/-- Number of accepted records a state holds for a (student, session)
pair. -/
def recordCount (st : BackendState) (studentId sessionId : ℕ) : ℕ :=
  (st.records.filter fun r =>
    r.studentId = studentId ∧ r.sessionId = sessionId).length

/-- JavaScript `Math.atan2(y, x)` over the reals: the angle of the point
(x, y), in (−π, π]. -/
noncomputable def atan2 (y x : ℝ) : ℝ :=
  if 0 < x then Real.arctan (y / x)
  else if x < 0 then
    (if 0 ≤ y then Real.arctan (y / x) + Real.pi
     else Real.arctan (y / x) - Real.pi)
  else
    (if 0 < y then Real.pi / 2
     else if y < 0 then -(Real.pi / 2)
     else 0)

/-- Function `calculateDistance` from `frontend/src/utils/geolocation.ts`
(lines 63–81), transcribed over the reals: degrees are converted to radians,
`a = sin(dPhi/2)·sin(dPhi/2) + cos phi1·cos phi2·sin(dLambda/2)·sin(dLambda/2)`,
`c = 2·atan2(sqrt a, sqrt (1−a))`, and the result is `R·c` with
`R = 6371e3` meters. -/
noncomputable def calculateDistance (lat1 lng1 lat2 lng2 : ℝ) : ℝ :=
  let R : ℝ := 6371e3
  let phi1 := lat1 * Real.pi / 180
  let phi2 := lat2 * Real.pi / 180
  let dPhi := (lat2 - lat1) * Real.pi / 180
  let dLambda := (lng2 - lng1) * Real.pi / 180
  let a := Real.sin (dPhi / 2) * Real.sin (dPhi / 2) +
    Real.cos phi1 * Real.cos phi2 *
      (Real.sin (dLambda / 2) * Real.sin (dLambda / 2))
  let c := 2 * atan2 (Real.sqrt a) (Real.sqrt (1 - a))
  R * c

/-- The haversine formula exactly as the specification words it (§4.2):
Earth radius 6,371,000 m, `a = sin²(Δφ/2) + cos φ1·cos φ2·sin²(Δλ/2)`,
central angle `c = 2·atan2(√a, √(1−a))`, result `R·c`.  Kept separate from
`calculateDistance` so the code can be checked against the spec's words. -/
noncomputable def haversineSpec (lat1 lng1 lat2 lng2 : ℝ) : ℝ :=
  let R : ℝ := 6371000
  let phi1 := lat1 * Real.pi / 180
  let phi2 := lat2 * Real.pi / 180
  let dPhi := (lat2 - lat1) * Real.pi / 180
  let dLambda := (lng2 - lng1) * Real.pi / 180
  let a := Real.sin (dPhi / 2) ^ 2 +
    Real.cos phi1 * Real.cos phi2 * Real.sin (dLambda / 2) ^ 2
  R * (2 * atan2 (Real.sqrt a) (Real.sqrt (1 - a)))

/-- For a non-negative ordinate, `atan2` lands in [0, π]: each branch of the
definition is non-negative when `0 ≤ y`. -/
lemma atan2_nonneg {y x : ℝ} (hy : 0 ≤ y) : 0 ≤ atan2 y x := by
  unfold atan2
  rcases lt_trichotomy x 0 with hx | hx | hx
  · rw [if_neg (by linarith), if_pos hx, if_pos hy]
    have h1 : -(Real.pi / 2) < Real.arctan (y / x) := Real.neg_pi_div_two_lt_arctan _
    have h2 : 0 < Real.pi := Real.pi_pos
    linarith
  · subst hx
    rw [if_neg (lt_irrefl 0), if_neg (lt_irrefl 0)]
    rcases lt_or_eq_of_le hy with h | h
    · rw [if_pos h]
      positivity
    · rw [if_neg (by simp [← h]), if_neg (by simp [← h])]
  · rw [if_pos hx]
    have : 0 ≤ y / x := div_nonneg hy hx.le
    calc (0 : ℝ) = Real.arctan 0 := Real.arctan_zero.symm
      _ ≤ Real.arctan (y / x) := Real.arctan_strictMono.monotone this

/-- C1: against an open session, for a student with a registered template and
no prior record, the attempt is accepted exactly when both the face factor
and the location factor hold; every other combination of the two factors is
rejected. -/
theorem verify_accepted_iff_both_factors
    (now : ℤ) (s : Session) (sessionId studentId : ℕ)
    (f : Bool) (d : ℚ) (st : BackendState)
    (hopen : sessionOpen now s = true)
    (htpl : hasTemplate st studentId = true)
    (hrec : hasRecord st studentId sessionId = false) :
    (verify now s sessionId studentId f d st).1 = MarkOutcome.accepted d ↔
      (f = true ∧ locationCheck d s.radiusMeters = true) := by
  cases hl : locationCheck d s.radiusMeters <;> cases f <;>
    simp [verify, hopen, htpl, hrec, hl]

/-- Witness for C1: a concrete open session, registered template and fresh
pair, with both factors passing, is accepted. -/
theorem verify_accepted_iff_both_factors_witness :
    (verify 5 ⟨0, 10, 7, 5, 100⟩ 3 1 true 50 ⟨[⟨1, [], 1⟩], []⟩).1 =
      MarkOutcome.accepted 50 :=
  (verify_accepted_iff_both_factors 5 ⟨0, 10, 7, 5, 100⟩ 3 1 true 50
    ⟨[⟨1, [], 1⟩], []⟩ (by decide) (by decide) (by decide)).mpr
    ⟨rfl, by decide⟩

/-- C2: the location factor used by the verifier holds exactly when the
distance is at most the session radius; the boundary is inclusive, a
distance short of the radius by any positive epsilon verifies, and a
distance exceeding it by any positive epsilon does not. -/
theorem locationCheck_iff_le_radius :
    (∀ d r : ℚ, locationCheck d r = true ↔ d ≤ r) ∧
    (∀ r : ℚ, locationCheck r r = true) ∧
    (∀ r eps : ℚ, 0 < eps →
      locationCheck (r - eps) r = true ∧ locationCheck (r + eps) r = false) := by
  refine ⟨fun d r => by simp [locationCheck], fun r => by simp [locationCheck],
    fun r eps heps => ⟨?_, ?_⟩⟩
  · simp only [locationCheck, decide_eq_true_eq]
    linarith
  · simp only [locationCheck, decide_eq_false_iff_not, not_le]
    linarith

/-- Witness for C2: around a 100 m radius, 99 m verifies and 101 m does
not. -/
theorem locationCheck_iff_le_radius_witness :
    locationCheck (100 - 1) 100 = true ∧ locationCheck (100 + 1) 100 = false :=
  locationCheck_iff_le_radius.2.2 100 1 (by norm_num)

/-- C4 counterexample: the attendance camera's manual coordinate entry
accepts latitude 91, which lies outside [-90, 90], instead of failing. -/
theorem useManualLocation_accepts_latitude_91 :
    useManualLocation (some 91) (some 0) =
      some { latitude := 91, longitude := 0, accuracy := 0 } ∧
      ¬((91 : ℚ) ≤ 90) := by
  refine ⟨rfl, by norm_num⟩

/-- C4 (amended): the session-creation manual entry fails when either string
does not parse or the latitude or longitude is out of range (boundaries
accepted) and on success yields accuracy 0; the attendance camera's manual
entry fails only when either string does not parse, accepting any parsed
coordinates with accuracy 0. -/
theorem manual_location_validation (la ln : ℚ) :
    (setManualLocationData (some la) (some ln) =
        some { latitude := la, longitude := ln, accuracy := 0 } ↔
      (-90 ≤ la ∧ la ≤ 90 ∧ -180 ≤ ln ∧ ln ≤ 180)) ∧
    setManualLocationData none (some ln) = none ∧
    setManualLocationData (some la) none = none ∧
    setManualLocationData none none = none ∧
    useManualLocation (some la) (some ln) =
      some { latitude := la, longitude := ln, accuracy := 0 } ∧
    useManualLocation none (some ln) = none ∧
    useManualLocation (some la) none = none ∧
    useManualLocation none none = none := by
  refine ⟨?_, rfl, rfl, rfl, rfl, rfl, rfl, rfl⟩
  have heq : setManualLocationData (some la) (some ln) =
      if la < -90 ∨ la > 90 then none
      else if ln < -180 ∨ ln > 180 then none
      else some { latitude := la, longitude := ln, accuracy := 0 } := rfl
  rw [heq]
  constructor
  · intro h
    by_cases h1 : la < -90 ∨ la > 90
    · simp [h1] at h
    · by_cases h2 : ln < -180 ∨ ln > 180
      · simp [h1, h2] at h
      · push_neg at h1 h2
        exact ⟨h1.1, h1.2, h2.1, h2.2⟩
  · intro ⟨h1, h2, h3, h4⟩
    rw [if_neg (by push_neg; exact ⟨h1, h2⟩), if_neg (by push_neg; exact ⟨h3, h4⟩)]

/-- C10: the submission step never posts without both inputs — whenever the
location is unresolved or the screenshot is unavailable an error is reported
and no request is made, and a posted request always carries the resolved
coordinates and the captured image. -/
theorem captureAndSubmit_requires_inputs
    (sessionId : ℕ) (w : Bool) (loc : Option LocationData)
    (shot : Option String) :
    ((loc = none ∨ shot = none) →
      ∃ m, captureAndSubmit sessionId w loc shot = SubmitAction.errorReported m) ∧
    (∀ sid img la ln,
      captureAndSubmit sessionId w loc shot = SubmitAction.posted sid img la ln →
        (∃ acc, loc = some { latitude := la, longitude := ln, accuracy := acc }) ∧
        shot = some img) := by
  refine ⟨?_, ?_⟩
  · intro h
    cases w
    · exact ⟨"Camera not available", by simp [captureAndSubmit]⟩
    · rcases h with h | h
      · subst h
        exact ⟨"Location is required. Please set your location first.",
          by simp [captureAndSubmit]⟩
      · subst h
        cases loc with
        | none =>
          exact ⟨"Location is required. Please set your location first.",
            by simp [captureAndSubmit]⟩
        | some l => exact ⟨"Failed to capture image", by simp [captureAndSubmit]⟩
  · intro sid img la ln h
    cases w
    · simp [captureAndSubmit] at h
    · cases loc with
      | none => simp [captureAndSubmit] at h
      | some l =>
        cases shot with
        | none => simp [captureAndSubmit] at h
        | some i =>
          simp [captureAndSubmit] at h
          obtain ⟨h1, h2, h3, h4⟩ := h
          refine ⟨⟨l.accuracy, ?_⟩, by rw [h2]⟩
          cases l
          simp_all

/-- Witness for C10: with no resolved location, the concrete invocation
reports an error rather than posting. -/
theorem captureAndSubmit_requires_inputs_witness :
    ∃ m, captureAndSubmit 1 true none (some "img") =
      SubmitAction.errorReported m :=
  (captureAndSubmit_requires_inputs 1 true none (some "img")).1 (Or.inl rfl)

/-- A state that holds no record for a pair has record count zero for that
pair. -/
lemma recordCount_eq_zero {st : BackendState} {x y : ℕ}
    (h : hasRecord st x y = false) : recordCount st x y = 0 := by
  simp only [hasRecord, List.any_eq_false, decide_eq_true_eq] at h
  simp only [recordCount, List.length_eq_zero, List.filter_eq_nil_iff]
  intro r hr
  simpa using h r hr

/-- C3: a mark attempt fails with `SessionClosed` exactly when the current
time is outside the half-open window [startTime, endTime); in particular, one
second before the start it is closed, at the start and one second before the
end it proceeds (accepting when the other factors pass), and at the end it is
closed again. -/
theorem verify_sessionClosed_iff_outside_window :
    (∀ (now : ℤ) (s : Session) (sid stid : ℕ) (f : Bool) (d : ℚ)
        (st : BackendState),
      (verify now s sid stid f d st).1 = MarkOutcome.sessionClosed ↔
        ¬(s.startTime ≤ now ∧ now < s.endTime)) ∧
    (∀ (s : Session) (sid stid : ℕ) (d : ℚ) (st : BackendState),
      s.startTime < s.endTime →
      hasTemplate st stid = true →
      hasRecord st stid sid = false →
      d ≤ s.radiusMeters →
      (verify (s.startTime - 1) s sid stid true d st).1 =
        MarkOutcome.sessionClosed ∧
      (verify s.startTime s sid stid true d st).1 = MarkOutcome.accepted d ∧
      (verify (s.endTime - 1) s sid stid true d st).1 =
        MarkOutcome.accepted d ∧
      (verify s.endTime s sid stid true d st).1 =
        MarkOutcome.sessionClosed) := by
  have hne : ∀ (now : ℤ) (s : Session) (sid stid : ℕ) (f : Bool) (d : ℚ)
      (st : BackendState), sessionOpen now s = true →
      (verify now s sid stid f d st).1 ≠ MarkOutcome.sessionClosed := by
    intro now s sid stid f d st h
    simp only [verify, h]
    split_ifs <;> simp_all
  have hclosed : ∀ (now : ℤ) (s : Session) (sid stid : ℕ) (f : Bool) (d : ℚ)
      (st : BackendState), sessionOpen now s = false →
      (verify now s sid stid f d st).1 = MarkOutcome.sessionClosed := by
    intro now s sid stid f d st h
    simp [verify, h]
  have part1 : ∀ (now : ℤ) (s : Session) (sid stid : ℕ) (f : Bool) (d : ℚ)
      (st : BackendState),
      (verify now s sid stid f d st).1 = MarkOutcome.sessionClosed ↔
        ¬(s.startTime ≤ now ∧ now < s.endTime) := by
    intro now s sid stid f d st
    by_cases h : sessionOpen now s = true
    · have hw : s.startTime ≤ now ∧ now < s.endTime := by
        simpa [sessionOpen] using h
      exact iff_of_false (hne now s sid stid f d st h) (not_not_intro hw)
    · have h0 : sessionOpen now s = false := by simpa using h
      refine iff_of_true (hclosed now s sid stid f d st h0) ?_
      intro hc
      simp [sessionOpen, hc.1, hc.2] at h0
  refine ⟨part1, fun s sid stid d st hlt htpl hrec hd => ?_⟩
  have hA : sessionOpen (s.startTime - 1) s = false := by
    simp [sessionOpen]
  have hB : sessionOpen s.startTime s = true := by
    simp [sessionOpen]
    omega
  have hC : sessionOpen (s.endTime - 1) s = true := by
    simp [sessionOpen]
    omega
  have hD : sessionOpen s.endTime s = false := by
    simp [sessionOpen]
  refine ⟨hclosed _ s sid stid true d st hA, ?_, ?_,
    hclosed _ s sid stid true d st hD⟩
  · simp [verify, hB, htpl, hrec, locationCheck, hd]
  · simp [verify, hC, htpl, hrec, locationCheck, hd]

/-- Witness for C3: for a concrete session over [100, 200) with a registered
template and passing factors, the four probe times behave as stated. -/
theorem verify_sessionClosed_iff_outside_window_witness :
    (verify 99 ⟨100, 200, 7, 5, 100⟩ 3 1 true 50 ⟨[⟨1, [], 1⟩], []⟩).1 =
      MarkOutcome.sessionClosed ∧
    (verify 100 ⟨100, 200, 7, 5, 100⟩ 3 1 true 50 ⟨[⟨1, [], 1⟩], []⟩).1 =
      MarkOutcome.accepted 50 ∧
    (verify 199 ⟨100, 200, 7, 5, 100⟩ 3 1 true 50 ⟨[⟨1, [], 1⟩], []⟩).1 =
      MarkOutcome.accepted 50 ∧
    (verify 200 ⟨100, 200, 7, 5, 100⟩ 3 1 true 50 ⟨[⟨1, [], 1⟩], []⟩).1 =
      MarkOutcome.sessionClosed := by
  have h := verify_sessionClosed_iff_outside_window.2
    ⟨100, 200, 7, 5, 100⟩ 3 1 50 ⟨[⟨1, [], 1⟩], []⟩
    (by decide) (by decide) (by decide) (by decide)
  simpa using h

/-- C5: the verifier never lets a second accepted record appear for a
(student, session) pair — when a record already exists the state is left
unchanged, an otherwise-qualifying second attempt resolves to
`AlreadyMarked`, and a state holding at most one record per pair still holds
at most one after any mark attempt. -/
theorem verify_at_most_one_record :
    (∀ (now : ℤ) (s : Session) (sid stid : ℕ) (f : Bool) (d : ℚ)
        (st : BackendState),
      hasRecord st stid sid = true → (verify now s sid stid f d st).2 = st) ∧
    (∀ (now : ℤ) (s : Session) (sid stid : ℕ) (d : ℚ) (st : BackendState),
      sessionOpen now s = true → hasTemplate st stid = true →
      hasRecord st stid sid = true → d ≤ s.radiusMeters →
      (verify now s sid stid true d st).1 = MarkOutcome.alreadyMarked) ∧
    (∀ (now : ℤ) (s : Session) (sid stid : ℕ) (f : Bool) (d : ℚ)
        (st : BackendState) (a b : ℕ),
      recordCount st a b ≤ 1 →
      recordCount (verify now s sid stid f d st).2 a b ≤ 1) := by
  refine ⟨?_, ?_, ?_⟩
  · intro now s sid stid f d st hrec
    simp only [verify]
    split_ifs <;> simp_all
  · intro now s sid stid d st hopen htpl hrec hd
    simp [verify, hopen, htpl, locationCheck, hd, hrec]
  · intro now s sid stid f d st a b hcount
    simp only [verify]
    split_ifs with h1 h2 h3 h4
    · exact hcount
    · have hrec0 : hasRecord st stid sid = false := by simpa using h4
      by_cases hab : stid = a ∧ sid = b
      · have h0 : recordCount st a b = 0 := by
          rw [← hab.1, ← hab.2]
          exact recordCount_eq_zero hrec0
        simp only [recordCount, List.filter_cons] at h0 ⊢
        rw [if_pos (by simp [hab.1, hab.2])]
        simp only [List.length_cons]
        omega
      · simp only [recordCount, List.filter_cons] at hcount ⊢
        rw [if_neg (by simpa using hab)]
        exact hcount
    · exact hcount
    · exact hcount
    · exact hcount

/-- Witness for C5: with one accepted record already stored, a concrete
second qualifying attempt resolves to `AlreadyMarked`. -/
theorem verify_at_most_one_record_witness :
    (verify 5 ⟨0, 10, 7, 5, 100⟩ 3 1 true 50
      ⟨[⟨1, [], 1⟩], [⟨1, 3, true, true, 50⟩]⟩).1 =
      MarkOutcome.alreadyMarked :=
  verify_at_most_one_record.2.1 5 ⟨0, 10, 7, 5, 100⟩ 3 1 50
    ⟨[⟨1, [], 1⟩], [⟨1, 3, true, true, 50⟩]⟩
    (by decide) (by decide) (by decide) (by decide)

/-- C8: enrollment below the 0.4 quality threshold fails with
`QualityTooLow` carrying the numeric score, a categorical status and
improvement suggestions, persists nothing, and a subsequent verification for
a student without a template still fails with `NoTemplate`. -/
theorem register_quality_gate
    (stid : ℕ) (enc : List ℚ) (q : ℚ) (st : BackendState) (now : ℤ)
    (s : Session) (sid : ℕ) (f : Bool) (d : ℚ)
    (hq : q < FACE_QUALITY_THRESHOLD)
    (hnone : hasTemplate st stid = false)
    (hopen : sessionOpen now s = true) :
    (register stid enc q st).1 =
      RegisterResult.qualityTooLow q "below-threshold"
        ["improve the lighting", "center your face in the frame",
         "remove obstructions"] ∧
    (register stid enc q st).2 = st ∧
    (verify now s sid stid f d (register stid enc q st).2).1 =
      MarkOutcome.noTemplate := by
  refine ⟨by simp [register, hq], by simp [register, hq], ?_⟩
  simp [register, hq, verify, hopen, hnone]

/-- Witness for C8: a concrete enrollment scoring 0.35 against the 0.4
threshold fails, stores nothing, and verification still reports
`NoTemplate`. -/
theorem register_quality_gate_witness :
    (register 1 [] (7/20) ⟨[], []⟩).1 =
      RegisterResult.qualityTooLow (7/20) "below-threshold"
        ["improve the lighting", "center your face in the frame",
         "remove obstructions"] ∧
    (register 1 [] (7/20) ⟨[], []⟩).2 = ⟨[], []⟩ ∧
    (verify 5 ⟨0, 10, 7, 5, 100⟩ 3 1 true 50
        (register 1 [] (7/20) ⟨[], []⟩).2).1 = MarkOutcome.noTemplate :=
  register_quality_gate 1 [] (7/20) ⟨[], []⟩ 5 ⟨0, 10, 7, 5, 100⟩ 3 true 50
    (by norm_num [FACE_QUALITY_THRESHOLD]) (by decide) (by decide)

/-- The haversine result is a product of the positive Earth radius and twice
an `atan2` value whose ordinate is a square root, hence non-negative. -/
lemma haversine_core_nonneg (A B : ℝ) :
    0 ≤ (6371e3 : ℝ) * (2 * atan2 (Real.sqrt A) (Real.sqrt B)) := by
  have h := @atan2_nonneg (Real.sqrt A) (Real.sqrt B) (Real.sqrt_nonneg A)
  have h2 : (0 : ℝ) ≤ 2 * atan2 (Real.sqrt A) (Real.sqrt B) := by linarith
  have h3 : (0 : ℝ) ≤ 6371e3 := by norm_num
  exact mul_nonneg h3 h2

/-- C6: `calculateDistance` computes exactly the standard haversine formula
with Earth radius 6,371,000 m as the spec words it, and its result is always
non-negative. -/
theorem calculateDistance_matches_haversineSpec_nonneg :
    ∀ lat1 lng1 lat2 lng2 : ℝ,
      calculateDistance lat1 lng1 lat2 lng2 =
        haversineSpec lat1 lng1 lat2 lng2 ∧
      0 ≤ calculateDistance lat1 lng1 lat2 lng2 := by
  intro lat1 lng1 lat2 lng2
  constructor
  · simp only [calculateDistance, haversineSpec, pow_two]
    norm_num
  · simp only [calculateDistance]
    exact haversine_core_nonneg _ _

/-- C7: `calculateDistance` is symmetric in its two points and vanishes on
the diagonal. -/
theorem calculateDistance_symm_diag :
    ∀ lat1 lng1 lat2 lng2 : ℝ,
      calculateDistance lat1 lng1 lat2 lng2 =
        calculateDistance lat2 lng2 lat1 lng1 ∧
      calculateDistance lat1 lng1 lat1 lng1 = 0 := by
  intro lat1 lng1 lat2 lng2
  have key : ∀ u v : ℝ, Real.sin ((u - v) * Real.pi / 180 / 2) *
      Real.sin ((u - v) * Real.pi / 180 / 2) =
      Real.sin ((v - u) * Real.pi / 180 / 2) *
        Real.sin ((v - u) * Real.pi / 180 / 2) := by
    intro u v
    have h : (u - v) * Real.pi / 180 / 2 = -((v - u) * Real.pi / 180 / 2) := by
      ring
    rw [h, Real.sin_neg]
    ring
  constructor
  · simp only [calculateDistance]
    rw [key lat2 lat1, key lng2 lng1,
      mul_comm (Real.cos (lat1 * Real.pi / 180))
        (Real.cos (lat2 * Real.pi / 180))]
  · norm_num [calculateDistance, atan2, Real.sqrt_one, Real.arctan_zero]

/-- Code 1 (PERMISSION_DENIED) maps to the permission message, for any
platform message. -/
lemma geoMsg1 (pm : String) : geolocationErrorMessage 1 pm =
    "Please allow location access in your browser settings" := rfl

/-- Code 2 (POSITION_UNAVAILABLE) maps to the availability message. -/
lemma geoMsg2 (pm : String) : geolocationErrorMessage 2 pm =
    "Location services unavailable. Please check your device settings" := rfl

/-- Code 3 (TIMEOUT) maps to the timeout message. -/
lemma geoMsg3 (pm : String) : geolocationErrorMessage 3 pm =
    "Location request timed out. Please try again" := rfl

/-- Any unclassified code falls to the interpolating default message. -/
lemma geoMsgDefault (code : ℕ) (pm : String)
    (h1 : code ≠ 1) (h2 : code ≠ 2) (h3 : code ≠ 3) :
    geolocationErrorMessage code pm =
      "Location error (" ++ toString code ++ "): " ++
        (if pm = "" then "Please enable location services" else pm) := by
  simp only [geolocationErrorMessage, if_neg h1, if_neg h2, if_neg h3]

/-- Strings differing at character position 9 are different. -/
lemma string_ne_of_data9 {s t : String} (h : s.data[9]? ≠ t.data[9]?) :
    s ≠ t := fun he => h (by rw [he])

/-- The default message's character at position 9 is the `e` of `error`,
whatever the code and the tail. -/
lemma default_getElem9 (code : ℕ) (X : String) :
    ("Location error (" ++ toString code ++ "): " ++ X).data[9]? = some 'e' := by
  rw [String.data_append, String.data_append, String.data_append,
    List.append_assoc, List.append_assoc, List.getElem?_append,
    if_pos (by decide)]
  decide

/-- C9: the device location request uses a 15 s timeout and a 5-minute
(300,000 ms) cache tolerance; every failure is returned as a typed
code-plus-message value; and the four failure conditions — permission
denied (1), position unavailable (2), timeout (3), and any unclassified
code — map to pairwise distinct user-facing messages. -/
theorem getCurrentLocation_options_and_distinct_errors :
    geolocationOptions.timeout = 15000 ∧
    geolocationOptions.maximumAge = 300000 ∧
    (∀ (code : ℕ) (pm : String),
      (geolocationFailure code pm).code = code ∧
      (geolocationFailure code pm).message = geolocationErrorMessage code pm) ∧
    (∀ pm pm2 : String,
      geolocationErrorMessage 1 pm ≠ geolocationErrorMessage 2 pm2 ∧
      geolocationErrorMessage 1 pm ≠ geolocationErrorMessage 3 pm2 ∧
      geolocationErrorMessage 2 pm ≠ geolocationErrorMessage 3 pm2) ∧
    (∀ (code : ℕ) (pm pm2 : String), code ≠ 1 → code ≠ 2 → code ≠ 3 →
      geolocationErrorMessage code pm ≠ geolocationErrorMessage 1 pm2 ∧
      geolocationErrorMessage code pm ≠ geolocationErrorMessage 2 pm2 ∧
      geolocationErrorMessage code pm ≠ geolocationErrorMessage 3 pm2) := by
  refine ⟨rfl, rfl, fun code pm => ⟨rfl, rfl⟩, fun pm pm2 => ?_,
    fun code pm pm2 h1 h2 h3 => ?_⟩
  · simp only [geoMsg1, geoMsg2, geoMsg3]
    refine ⟨by decide, by decide, by decide⟩
  · have hd := geoMsgDefault code pm h1 h2 h3
    refine ⟨?_, ?_, ?_⟩
    · rw [hd, geoMsg1]
      apply string_ne_of_data9
      rw [default_getElem9]
      decide
    · rw [hd, geoMsg2]
      apply string_ne_of_data9
      rw [default_getElem9]
      decide
    · rw [hd, geoMsg3]
      apply string_ne_of_data9
      rw [default_getElem9]
      decide

/-- Witness for C9: the concrete unclassified code 7 yields a message
distinct from the permission-denied message. -/
theorem getCurrentLocation_options_and_distinct_errors_witness :
    geolocationErrorMessage 7 "" ≠ geolocationErrorMessage 1 "" :=
  (getCurrentLocation_options_and_distinct_errors.2.2.2.2 7 "" ""
    (by decide) (by decide) (by decide)).1
